import Mathlib

/-!
Verification of the typed BPF map-handle layer of `src/api/BPFTable.h`.

The C++ classes are shallowly embedded: each handle class becomes a Lean
structure, each member function a pure Lean function.  Kernel syscalls
(`bpf_lookup_elem`, `bpf_update_elem`, `bpf_delete_elem`,
`bpf_get_first_key`, `bpf_get_next_key`, `bpf_lookup_and_delete`) are opaque
to the C++ layer, so they are modelled as explicit oracle arguments: a call
returning `≥ 0` is success, a call returning `< 0` sets `errno`, which we
model as `Except Nat _` / `Option Nat` (the `Nat` being the errno value).
Functions whose C++ form issues a kernel *write* additionally return the
list of issued kernel calls, so that "never reaches the syscall boundary"
is a provable statement.
-/

set_option autoImplicit false

namespace ebpf

/-- Kernel BPF map kinds referenced by `BPFTable.h` (from `linux/bpf.h`). -/
inductive BpfMapType where
  | array
  | percpu_array
  | hash
  | percpu_hash
  | lru_hash
  | lru_percpu_hash
  | queue
  | stack
  | array_of_maps
  | hash_of_maps
  | prog_array
  | cgroup_array
  | devmap
  | xskmap
  | sockmap
  | sockhash
  | sk_storage
  | inode_storage
  | task_storage
  | cgroup_storage
  | percpu_cgroup_storage
  deriving DecidableEq, Repr

/-- bcc `StatusTuple`: numeric code plus message; `ok` iff the code is 0. -/
structure StatusTuple where
  code : Int
  msg : String
  deriving DecidableEq, Repr

/-- `StatusTuple::ok()`. -/
def StatusTuple.ok (s : StatusTuple) : Bool := s.code == 0

/-- `StatusTuple::OK()`: success status, code 0. -/
def StatusTuple.OK : StatusTuple := ⟨0, ""⟩

/-- The fields of `TableDesc` that `BPFTable.h` reads (kind, name, sizes,
capacity, fd).  The two codec function pointers are passed separately to the
operations that use them. -/
structure TableDesc where
  type : BpfMapType
  name : String
  key_size : Nat
  leaf_size : Nat
  max_entries : Nat
  fd : Int
  deriving DecidableEq, Repr

/-- Model of libc `strerror` for the errno values this development uses
(`EPERM = 1`, `ENOENT = 2`); any other code maps to a generic message. -/
def strerror : Nat → String
  | 1 => "Operation not permitted"
  | 2 => "No such file or directory"
  | _ => "Unknown error"

/-- `Except.isOk` under a local name: `true` exactly on `Except.ok`. -/
def isOkE {ε α : Type} : Except ε α → Bool
  | Except.ok _ => true
  | Except.error _ => false

/-- `std::vector::resize(n)` with default element `d`: truncate to `n`
elements or pad with default-constructed elements up to `n`. -/
def vecResize {V : Type} (d : V) (v : List V) (n : Nat) : List V :=
  v.take n ++ List.replicate (n - v.length) d

/-- Kernel write of `data` into caller buffer `buf` (`memcpy` semantics of
`bpf_lookup_elem` filling `buf.data()`): positions covered by `data` are
overwritten, the rest of the buffer keeps its contents, and the buffer's
size never changes. -/
def memWrite {V : Type} (buf data : List V) : List V :=
  data.take buf.length ++ buf.drop data.length

/-! ## Typed-variant constructors

Each C++ constructor throws `std::invalid_argument` on a descriptor whose
kind is outside the variant's accepted set; we model a constructor as a
total function into `Except String _` (error = exception message, so an
invalid construction yields no handle value at all).  The base-class
constructor runs first, exactly as in C++. -/

/-- Accepted kinds of `BPFArrayTable` (`BPFTable.h:199-200`). -/
def arrayAccepted : List BpfMapType := [BpfMapType.array, BpfMapType.percpu_array]

/-- Accepted kinds of `BPFHashTable` (`BPFTable.h:271-274`). -/
def hashAccepted : List BpfMapType :=
  [BpfMapType.hash, BpfMapType.percpu_hash, BpfMapType.lru_hash, BpfMapType.lru_percpu_hash]

/-- Accepted kinds of `BPFQueueStackTable` (`BPFTable.h:170-171`). -/
def queueStackAccepted : List BpfMapType := [BpfMapType.queue, BpfMapType.stack]

/-- `BPFArrayTable::BPFArrayTable` (`BPFTable.h:198-203`). -/
def BPFArrayTable.construct (desc : TableDesc) : Except String TableDesc :=
  if desc.type ≠ BpfMapType.array ∧ desc.type ≠ BpfMapType.percpu_array then
    Except.error ("Table '" ++ desc.name ++ "' is not an array table")
  else
    Except.ok desc

/-- `BPFHashTable::BPFHashTable` (`BPFTable.h:269-277`). -/
def BPFHashTable.construct (desc : TableDesc) : Except String TableDesc :=
  if desc.type ≠ BpfMapType.hash ∧ desc.type ≠ BpfMapType.percpu_hash ∧
      desc.type ≠ BpfMapType.lru_hash ∧ desc.type ≠ BpfMapType.lru_percpu_hash then
    Except.error ("Table '" ++ desc.name ++ "' is not a hash table")
  else
    Except.ok desc

/-- `BPFQueueStackTable::BPFQueueStackTable` (`BPFTable.h:169-174`). -/
def BPFQueueStackTable.construct (desc : TableDesc) : Except String TableDesc :=
  if desc.type ≠ BpfMapType.queue ∧ desc.type ≠ BpfMapType.stack then
    Except.error ("Table '" ++ desc.name ++ "' is not a queue/stack table")
  else
    Except.ok desc

/-- C2: a typed variant rejects, at construction, every descriptor whose
kind lies outside its accepted set: the result is precisely the
kind-mismatch error (so no handle exists), and construction succeeds
exactly on the accepted kinds — array/per-CPU-array for the Array variant,
the four hash kinds for the Hash variant, queue/stack for the Queue/Stack
variant. -/
theorem typed_construction_kind_check (desc : TableDesc) :
    ((isOkE (BPFArrayTable.construct desc) = true) ↔ desc.type ∈ arrayAccepted) ∧
    (desc.type ∉ arrayAccepted →
      BPFArrayTable.construct desc =
        Except.error ("Table '" ++ desc.name ++ "' is not an array table")) ∧
    ((isOkE (BPFHashTable.construct desc) = true) ↔ desc.type ∈ hashAccepted) ∧
    (desc.type ∉ hashAccepted →
      BPFHashTable.construct desc =
        Except.error ("Table '" ++ desc.name ++ "' is not a hash table")) ∧
    ((isOkE (BPFQueueStackTable.construct desc) = true) ↔ desc.type ∈ queueStackAccepted) ∧
    (desc.type ∉ queueStackAccepted →
      BPFQueueStackTable.construct desc =
        Except.error ("Table '" ++ desc.name ++ "' is not a queue/stack table")) := by
  obtain ⟨ty, nm, ks, ls, me, fd⟩ := desc
  cases ty <;>
    simp [BPFArrayTable.construct, BPFHashTable.construct, BPFQueueStackTable.construct,
      arrayAccepted, hashAccepted, queueStackAccepted, isOkE]

/-- Witness for C2 at a concrete descriptor: a queue-kind descriptor is
accepted by the Queue/Stack variant and rejected by the Array variant with
the kind-mismatch error. -/
theorem typed_construction_kind_check_witness :
    (BpfMapType.queue ∉ arrayAccepted) ∧
    BPFArrayTable.construct ⟨BpfMapType.queue, "q", 0, 4, 8, 3⟩ =
      Except.error "Table 'q' is not an array table" := by
  refine ⟨by decide, ?_⟩
  exact (typed_construction_kind_check ⟨BpfMapType.queue, "q", 0, 4, 8, 3⟩).2.1 (by decide)

/-! ## Per-CPU variants

A per-CPU handle stores the possible-CPU count queried at construction
(`ncpus(BPFTable::get_possible_cpu_count())`).  `sizeofV` stands for the
compile-time `sizeof(ValueType)` of the C++ template instantiation. -/

/-- `struct bpf_cgroup_storage_key` (`linux/bpf.h`): cgroup inode id plus
attach type. -/
structure BpfCgroupStorageKey where
  cgroup_inode_id : Nat
  attach_type : Nat
  deriving DecidableEq, Repr

/-- Handle state of `BPFPercpuArrayTable<ValueType>`. -/
structure BPFPercpuArrayTable where
  desc : TableDesc
  ncpus : Nat
  deriving DecidableEq, Repr

/-- Handle state of `BPFPercpuHashTable<KeyType, ValueType>`. -/
structure BPFPercpuHashTable where
  desc : TableDesc
  ncpus : Nat
  deriving DecidableEq, Repr

/-- Handle state of `BPFPercpuCgStorageTable<ValueType>`. -/
structure BPFPercpuCgStorageTable where
  desc : TableDesc
  ncpus : Nat
  deriving DecidableEq, Repr

/-- `BPFPercpuArrayTable::BPFPercpuArrayTable` (`BPFTable.h:238-248`): the
`BPFArrayTable` base constructor's kind check runs first, then the
per-CPU-array kind check, then the 8-byte leaf-alignment check. -/
def BPFPercpuArrayTable.construct (sizeofV ncpus : Nat) (desc : TableDesc) :
    Except String BPFPercpuArrayTable :=
  if desc.type ≠ BpfMapType.array ∧ desc.type ≠ BpfMapType.percpu_array then
    Except.error ("Table '" ++ desc.name ++ "' is not an array table")
  else if desc.type ≠ BpfMapType.percpu_array then
    Except.error ("Table '" ++ desc.name ++ "' is not a percpu array table")
  else if sizeofV % 8 ≠ 0 then
    Except.error "leaf must be aligned to 8 bytes"
  else
    Except.ok ⟨desc, ncpus⟩

/-- `BPFPercpuHashTable::BPFPercpuHashTable` (`BPFTable.h:339-350`): the
`BPFHashTable` base constructor's kind check runs first, then the
per-CPU-hash kind check, then the 8-byte leaf-alignment check. -/
def BPFPercpuHashTable.construct (sizeofV ncpus : Nat) (desc : TableDesc) :
    Except String BPFPercpuHashTable :=
  if desc.type ≠ BpfMapType.hash ∧ desc.type ≠ BpfMapType.percpu_hash ∧
      desc.type ≠ BpfMapType.lru_hash ∧ desc.type ≠ BpfMapType.lru_percpu_hash then
    Except.error ("Table '" ++ desc.name ++ "' is not a hash table")
  else if desc.type ≠ BpfMapType.percpu_hash ∧ desc.type ≠ BpfMapType.lru_percpu_hash then
    Except.error ("Table '" ++ desc.name ++ "' is not a percpu hash table")
  else if sizeofV % 8 ≠ 0 then
    Except.error "leaf must be aligned to 8 bytes"
  else
    Except.ok ⟨desc, ncpus⟩

/-- `BPFPercpuCgStorageTable::BPFPercpuCgStorageTable`
(`BPFTable.h:646-654`): kind check, then the 8-byte leaf-alignment check
(the `BPFTableBase` base constructor performs no check). -/
def BPFPercpuCgStorageTable.construct (sizeofV ncpus : Nat) (desc : TableDesc) :
    Except String BPFPercpuCgStorageTable :=
  if desc.type ≠ BpfMapType.percpu_cgroup_storage then
    Except.error ("Table '" ++ desc.name ++ "' is not a percpu_cgroup_storage table")
  else if sizeofV % 8 ≠ 0 then
    Except.error "leaf must be aligned to 8 bytes"
  else
    Except.ok ⟨desc, ncpus⟩

/-! ## Scalar get/update of the array and hash variants

The kernel-lookup oracle `kern : _ → Except Nat V` models one
`bpf_lookup_elem` call on the handle's fd: `Except.ok data` is a successful
read writing `data` into the caller's buffer, `Except.error e` a failed
call with `errno = e` leaving the buffer untouched.  The kernel-update
oracle `ku : _ → _ → Option Nat` models `bpf_update_elem`: `none` is
success, `some e` failure with `errno = e`; the list in the result records
every issued kernel update call. -/

/-- `BPFArrayTable::get_value` (`BPFTable.h:205-209`) at a scalar
`ValueType`; `value` is the caller's buffer. -/
def BPFArrayTable.get_value {V : Type} (kern : Int → Except Nat V) (index : Int)
    (value : V) : StatusTuple × V :=
  match kern index with
  | Except.ok data => (StatusTuple.OK, data)
  | Except.error e => (⟨-1, "Error getting value: " ++ strerror e⟩, value)

/-- `BPFArrayTable::operator[]` (`BPFTable.h:218-222`): return a
default-constructed `ValueType` (`d`) passed through `get_value`, ignoring
the returned status. -/
def BPFArrayTable.opIndex {V : Type} (kern : Int → Except Nat V) (key : Int) (d : V) : V :=
  (BPFArrayTable.get_value kern key d).2

/-- `BPFHashTable::get_value` (`BPFTable.h:279-283`) at a scalar
`ValueType`. -/
def BPFHashTable.get_value {K V : Type} (kern : K → Except Nat V) (key : K)
    (value : V) : StatusTuple × V :=
  match kern key with
  | Except.ok data => (StatusTuple.OK, data)
  | Except.error e => (⟨-1, "Error getting value: " ++ strerror e⟩, value)

/-- `BPFHashTable::operator[]` (`BPFTable.h:298-302`). -/
def BPFHashTable.opIndex {K V : Type} (kern : K → Except Nat V) (key : K) (d : V) : V :=
  (BPFHashTable.get_value kern key d).2

/-- `BPFArrayTable::update_value` (`BPFTable.h:211-216`); `W` is the
template's `ValueType` (a scalar, or `std::vector` for the per-CPU
instantiation).  The second component records the issued kernel update
call. -/
def BPFArrayTable.update_value {W : Type} (ku : Int → W → Option Nat) (index : Int)
    (value : W) : StatusTuple × List (Int × W) :=
  match ku index value with
  | none => (StatusTuple.OK, [(index, value)])
  | some e => (⟨-1, "Error updating value: " ++ strerror e⟩, [(index, value)])

/-- `BPFHashTable::update_value` (`BPFTable.h:285-290`). -/
def BPFHashTable.update_value {K W : Type} (ku : K → W → Option Nat) (key : K)
    (value : W) : StatusTuple × List (K × W) :=
  match ku key value with
  | none => (StatusTuple.OK, [(key, value)])
  | some e => (⟨-1, "Error updating value: " ++ strerror e⟩, [(key, value)])

/-! ## Per-CPU get/update -/

/-- `BPFArrayTable::get_value` at `ValueType = std::vector<V>`
(`BPFTable.h:205-209`): `get_value_addr` passes `value.data()`, so a
successful read overwrites the buffer contents in place without changing
its size. -/
def BPFArrayTable.get_value_vec {V : Type} (kern : Int → Except Nat (List V)) (index : Int)
    (value : List V) : StatusTuple × List V :=
  match kern index with
  | Except.ok data => (StatusTuple.OK, memWrite value data)
  | Except.error e => (⟨-1, "Error getting value: " ++ strerror e⟩, value)

/-- `BPFHashTable::get_value` at `ValueType = std::vector<V>`. -/
def BPFHashTable.get_value_vec {K V : Type} (kern : K → Except Nat (List V)) (key : K)
    (value : List V) : StatusTuple × List V :=
  match kern key with
  | Except.ok data => (StatusTuple.OK, memWrite value data)
  | Except.error e => (⟨-1, "Error getting value: " ++ strerror e⟩, value)

/-- `BPFPercpuArrayTable::get_value` (`BPFTable.h:250-253`):
`value.resize(ncpus)` then delegate to the base-class `get_value`. -/
def BPFPercpuArrayTable.get_value {V : Type} (t : BPFPercpuArrayTable)
    (kern : Int → Except Nat (List V)) (index : Int) (value : List V) (d : V) :
    StatusTuple × List V :=
  BPFArrayTable.get_value_vec kern index (vecResize d value t.ncpus)

/-- `BPFPercpuHashTable::get_value` (`BPFTable.h:352-355`). -/
def BPFPercpuHashTable.get_value {K V : Type} (t : BPFPercpuHashTable)
    (kern : K → Except Nat (List V)) (key : K) (value : List V) (d : V) :
    StatusTuple × List V :=
  BPFHashTable.get_value_vec kern key (vecResize d value t.ncpus)

/-- `BPFPercpuCgStorageTable::get_value` (`BPFTable.h:656-663`):
`value.resize(ncpus)` then a direct `lookup`. -/
def BPFPercpuCgStorageTable.get_value {V : Type} (t : BPFPercpuCgStorageTable)
    (kern : BpfCgroupStorageKey → Except Nat (List V)) (key : BpfCgroupStorageKey)
    (value : List V) (d : V) : StatusTuple × List V :=
  match kern key with
  | Except.ok data => (StatusTuple.OK, memWrite (vecResize d value t.ncpus) data)
  | Except.error e => (⟨-1, "Error getting value: " ++ strerror e⟩, vecResize d value t.ncpus)

/-- `BPFPercpuArrayTable::update_value` (`BPFTable.h:255-260`): reject a
sequence whose length differs from `ncpus` with "bad value size" before any
kernel call; otherwise delegate to the base-class `update_value`. -/
def BPFPercpuArrayTable.update_value {V : Type} (t : BPFPercpuArrayTable)
    (ku : Int → List V → Option Nat) (index : Int) (value : List V) :
    StatusTuple × List (Int × List V) :=
  if value.length ≠ t.ncpus then (⟨-1, "bad value size"⟩, [])
  else BPFArrayTable.update_value ku index value

/-- `BPFPercpuHashTable::update_value` (`BPFTable.h:357-363`). -/
def BPFPercpuHashTable.update_value {K V : Type} (t : BPFPercpuHashTable)
    (ku : K → List V → Option Nat) (key : K) (value : List V) :
    StatusTuple × List (K × List V) :=
  if value.length ≠ t.ncpus then (⟨-1, "bad value size"⟩, [])
  else BPFHashTable.update_value ku key value

/-- `BPFPercpuCgStorageTable::update_value` (`BPFTable.h:665-672`):
`value.resize(ncpus)` on the caller's vector (no length check), then one
`update` kernel call with the resized buffer.  The result carries the
status, the issued kernel calls, and the caller's vector after the call
(it is taken by non-const reference and mutated). -/
def BPFPercpuCgStorageTable.update_value {V : Type} (t : BPFPercpuCgStorageTable)
    (ku : BpfCgroupStorageKey → List V → Option Nat) (d : V) (key : BpfCgroupStorageKey)
    (value : List V) : StatusTuple × List (BpfCgroupStorageKey × List V) × List V :=
  match ku key (vecResize d value t.ncpus) with
  | none => (StatusTuple.OK, [(key, vecResize d value t.ncpus)], vecResize d value t.ncpus)
  | some e => (⟨-1, "Error updating value: " ++ strerror e⟩,
      [(key, vecResize d value t.ncpus)], vecResize d value t.ncpus)

/-! ## Length lemmas -/

/-- `vecResize` always yields a list of exactly `n` elements. -/
theorem vecResize_length {V : Type} (d : V) (v : List V) (n : Nat) :
    (vecResize d v n).length = n := by
  simp [vecResize]
  omega

/-- A kernel write never changes the buffer's size. -/
theorem memWrite_length {V : Type} (buf data : List V) :
    (memWrite buf data).length = buf.length := by
  simp [memWrite]
  omega

/-- C5: for each per-CPU variant, `get_value` resizes the caller's buffer
to the possible-CPU count before the kernel read, and the kernel read
never changes the buffer's size — so the returned sequence (in particular
after a successful read) has exactly `ncpus` elements, for every kernel
outcome and every incoming buffer. -/
theorem percpu_get_value_resizes {V : Type} (d : V) (tA : BPFPercpuArrayTable)
    (tH : BPFPercpuHashTable) (tC : BPFPercpuCgStorageTable)
    (kernA : Int → Except Nat (List V)) (kernH : Nat → Except Nat (List V))
    (kernC : BpfCgroupStorageKey → Except Nat (List V))
    (i : Int) (hk : Nat) (ck : BpfCgroupStorageKey) (value : List V) :
    (BPFPercpuArrayTable.get_value tA kernA i value d).2.length = tA.ncpus ∧
    (BPFPercpuHashTable.get_value tH kernH hk value d).2.length = tH.ncpus ∧
    (BPFPercpuCgStorageTable.get_value tC kernC ck value d).2.length = tC.ncpus := by
  refine ⟨?_, ?_, ?_⟩
  · unfold BPFPercpuArrayTable.get_value BPFArrayTable.get_value_vec
    cases kernA i <;> simp [memWrite_length, vecResize_length]
  · unfold BPFPercpuHashTable.get_value BPFHashTable.get_value_vec
    cases kernH hk <;> simp [memWrite_length, vecResize_length]
  · unfold BPFPercpuCgStorageTable.get_value
    cases kernC ck <;> simp [memWrite_length, vecResize_length]

/-- C6: whenever the template value type's size is not a multiple of
8 bytes, none of the three per-CPU constructors yields a handle, and on a
descriptor of the matching kind the reported error is exactly the
alignment message — so no handle over a misaligned per-CPU value ever
exists. -/
theorem percpu_alignment_check (sizeofV ncpus : Nat) (desc : TableDesc)
    (h : sizeofV % 8 ≠ 0) :
    isOkE (BPFPercpuArrayTable.construct sizeofV ncpus desc) = false ∧
    isOkE (BPFPercpuHashTable.construct sizeofV ncpus desc) = false ∧
    isOkE (BPFPercpuCgStorageTable.construct sizeofV ncpus desc) = false ∧
    (desc.type = BpfMapType.percpu_array →
      BPFPercpuArrayTable.construct sizeofV ncpus desc =
        Except.error "leaf must be aligned to 8 bytes") ∧
    (desc.type = BpfMapType.percpu_hash →
      BPFPercpuHashTable.construct sizeofV ncpus desc =
        Except.error "leaf must be aligned to 8 bytes") ∧
    (desc.type = BpfMapType.percpu_cgroup_storage →
      BPFPercpuCgStorageTable.construct sizeofV ncpus desc =
        Except.error "leaf must be aligned to 8 bytes") := by
  obtain ⟨ty, nm, ks, ls, me, fd⟩ := desc
  cases ty <;>
    simp_all [BPFPercpuArrayTable.construct, BPFPercpuHashTable.construct,
      BPFPercpuCgStorageTable.construct, isOkE]

/-- Witness for C6 at `sizeof(ValueType) = 4` over a per-CPU-array
descriptor: construction fails with the alignment error. -/
theorem percpu_alignment_check_witness :
    (4 % 8 ≠ 0) ∧
    BPFPercpuArrayTable.construct 4 2 ⟨BpfMapType.percpu_array, "t", 4, 4, 8, 3⟩ =
      Except.error "leaf must be aligned to 8 bytes" := by
  refine ⟨by decide, ?_⟩
  exact (percpu_alignment_check 4 2 ⟨BpfMapType.percpu_array, "t", 4, 4, 8, 3⟩
    (by decide)).2.2.2.1 rfl

/-- C1 (amended): `BPFPercpuArrayTable::update_value` and
`BPFPercpuHashTable::update_value` reject a sequence whose length differs
from the possible-CPU count with the "bad value size" error and issue no
kernel update call; `BPFPercpuCgStorageTable::update_value` performs no
such check — for every incoming sequence it resizes the caller's sequence
to the CPU count and issues exactly one kernel update call carrying the
resized sequence. -/
theorem percpu_update_size_check {V : Type} (d : V) (tA : BPFPercpuArrayTable)
    (tH : BPFPercpuHashTable) (tC : BPFPercpuCgStorageTable)
    (kuA : Int → List V → Option Nat) (kuH : Nat → List V → Option Nat)
    (kuC : BpfCgroupStorageKey → List V → Option Nat)
    (i : Int) (hk : Nat) (ck : BpfCgroupStorageKey) (value : List V)
    (hA : value.length ≠ tA.ncpus) (hH : value.length ≠ tH.ncpus) :
    BPFPercpuArrayTable.update_value tA kuA i value = (⟨-1, "bad value size"⟩, []) ∧
    BPFPercpuHashTable.update_value tH kuH hk value = (⟨-1, "bad value size"⟩, []) ∧
    (BPFPercpuCgStorageTable.update_value tC kuC d ck value).2.1 =
      [(ck, vecResize d value tC.ncpus)] ∧
    (BPFPercpuCgStorageTable.update_value tC kuC d ck value).2.2 =
      vecResize d value tC.ncpus := by
  refine ⟨?_, ?_, ?_, ?_⟩
  · simp [BPFPercpuArrayTable.update_value, hA]
  · simp [BPFPercpuHashTable.update_value, hH]
  · unfold BPFPercpuCgStorageTable.update_value
    cases kuC ck (vecResize d value tC.ncpus) <;> simp
  · unfold BPFPercpuCgStorageTable.update_value
    cases kuC ck (vecResize d value tC.ncpus) <;> simp

/-- Witness for C1 (amended) at a length-1 sequence against CPU count 2. -/
theorem percpu_update_size_check_witness :
    (([7] : List Nat).length ≠ 2) ∧
    BPFPercpuArrayTable.update_value ⟨⟨BpfMapType.percpu_array, "a", 4, 8, 8, 3⟩, 2⟩
      (fun _ _ => none) 0 [7] = (⟨-1, "bad value size"⟩, []) := by
  refine ⟨by decide, ?_⟩
  exact (percpu_update_size_check (0 : Nat)
    ⟨⟨BpfMapType.percpu_array, "a", 4, 8, 8, 3⟩, 2⟩
    ⟨⟨BpfMapType.percpu_hash, "h", 4, 8, 8, 4⟩, 2⟩
    ⟨⟨BpfMapType.percpu_cgroup_storage, "c", 16, 8, 8, 5⟩, 2⟩
    (fun _ _ => none) (fun _ _ => none) (fun _ _ => none)
    0 0 ⟨1, 1⟩ [7] (by decide) (by decide)).1

/-- Concrete per-CPU cgroup-storage handle with CPU count 2, used to
exhibit the missing size check. -/
def cgHandle : BPFPercpuCgStorageTable :=
  ⟨⟨BpfMapType.percpu_cgroup_storage, "cg", 16, 8, 1, 3⟩, 2⟩

/-- C1 counterexample: on `BPFPercpuCgStorageTable` with CPU count 2, an
`update_value` with the length-1 sequence `[7]` does not fail with
"bad value size" — it succeeds, and it issues a kernel update call carrying
the sequence resized to `[7, 0]`. -/
theorem percpu_cg_update_no_size_check :
    (([7] : List Nat).length ≠ cgHandle.ncpus) ∧
    (BPFPercpuCgStorageTable.update_value cgHandle (fun _ _ => none) 0 ⟨1, 1⟩
      ([7] : List Nat)).1 = StatusTuple.OK ∧
    (BPFPercpuCgStorageTable.update_value cgHandle (fun _ _ => none) 0 ⟨1, 1⟩
      ([7] : List Nat)).2.1 = [(⟨1, 1⟩, [7, 0])] := by
  refine ⟨by decide, rfl, rfl⟩

/-! ## Queue/stack operations

`kpop` models one `bpf_lookup_and_delete(fd, nullptr, value)` call,
`kpeek` one `bpf_lookup_elem(fd, nullptr, value)` call: `Except.ok data`
writes `data` into the caller's buffer, `Except.error e` fails with
`errno = e` (an empty queue or stack fails with `ENOENT = 2`). -/

/-- `BPFQueueStackTable::pop_value` (`BPFTable.h:176-180`). -/
def BPFQueueStackTable.pop_value {V : Type} (kpop : Except Nat V) (value : V) :
    StatusTuple × V :=
  match kpop with
  | Except.ok data => (StatusTuple.OK, data)
  | Except.error e => (⟨-1, "Error getting value: " ++ strerror e⟩, value)

/-- `BPFQueueStackTable::get_head` (`BPFTable.h:188-192`). -/
def BPFQueueStackTable.get_head {V : Type} (kpeek : Except Nat V) (value : V) :
    StatusTuple × V :=
  match kpeek with
  | Except.ok data => (StatusTuple.OK, data)
  | Except.error e => (⟨-1, "Error peeking value: " ++ strerror e⟩, value)

/-- C7 counterexample: popping or peeking an empty container (the kernel
call fails with `ENOENT`) yields no distinct "empty" result — the status
code is `-1`, identical to that of any other failure (here `EPERM`), and
the message is the generic error text with the errno string appended, not
an "empty" marker. -/
theorem queuestack_empty_not_distinct :
    (BPFQueueStackTable.pop_value (Except.error 2 : Except Nat Nat) 0).1.code =
      (BPFQueueStackTable.pop_value (Except.error 1 : Except Nat Nat) 0).1.code ∧
    (BPFQueueStackTable.pop_value (Except.error 2 : Except Nat Nat) 0).1 =
      ⟨-1, "Error getting value: No such file or directory"⟩ ∧
    (BPFQueueStackTable.get_head (Except.error 2 : Except Nat Nat) 0).1 =
      ⟨-1, "Error peeking value: No such file or directory"⟩ := by
  refine ⟨rfl, rfl, rfl⟩

/-- C7 (amended): on an empty container (kernel failure with `ENOENT`),
`pop_value` and `get_head` return a failing `StatusTuple` with code `-1`
whose message embeds `strerror(errno)` ("No such file or directory"), the
caller's buffer untouched; the code is `-1` for every failing errno, so
emptiness is distinguishable only through the errno-derived message text;
a successful kernel call returns `OK` with the read value. -/
theorem queuestack_empty_reports_errno (e : Nat) (v w : Nat) :
    BPFQueueStackTable.pop_value (Except.error 2 : Except Nat Nat) v =
      (⟨-1, "Error getting value: " ++ strerror 2⟩, v) ∧
    BPFQueueStackTable.get_head (Except.error 2 : Except Nat Nat) v =
      (⟨-1, "Error peeking value: " ++ strerror 2⟩, v) ∧
    (BPFQueueStackTable.pop_value (Except.error e : Except Nat Nat) v).1.code = -1 ∧
    (BPFQueueStackTable.get_head (Except.error e : Except Nat Nat) v).1.code = -1 ∧
    BPFQueueStackTable.pop_value (Except.ok w : Except Nat Nat) v = (StatusTuple.OK, w) ∧
    BPFQueueStackTable.get_head (Except.ok w : Except Nat Nat) v = (StatusTuple.OK, w) := by
  refine ⟨rfl, rfl, rfl, rfl, rfl, rfl⟩

/-! ## Text codecs

A codec (`desc.key_snprintf` / `desc.leaf_snprintf`) receives the buffer
and its size and returns a status, filling the buffer on success; we model
it as a function from the buffer size and the element to
`StatusTuple × String` (status, buffer contents). -/

/-- `BPFTableBase::key_to_string` (`BPFTable.h:90-96`): a stack buffer of
`8 * desc.key_size` bytes is handed, together with that size, to the
codec; the caller's string is assigned only when the codec succeeds. -/
def BPFTableBase.key_to_string {K : Type} (key_snprintf : Nat → K → StatusTuple × String)
    (key_size : Nat) (key : K) (key_str : String) : StatusTuple × String :=
  let rc := key_snprintf (8 * key_size) key
  if rc.1.ok then (rc.1, rc.2) else (rc.1, key_str)

/-- `BPFTableBase::leaf_to_string` (`BPFTable.h:98-104`). -/
def BPFTableBase.leaf_to_string {V : Type} (leaf_snprintf : Nat → V → StatusTuple × String)
    (leaf_size : Nat) (value : V) (value_str : String) : StatusTuple × String :=
  let rc := leaf_snprintf (8 * leaf_size) value
  if rc.1.ok then (rc.1, rc.2) else (rc.1, value_str)

/-- `BPFQueueStackTableBase::leaf_to_string` (`BPFTable.h:48-54`). -/
def BPFQueueStackTableBase.leaf_to_string {V : Type}
    (leaf_snprintf : Nat → V → StatusTuple × String) (leaf_size : Nat) (value : V)
    (value_str : String) : StatusTuple × String :=
  let rc := leaf_snprintf (8 * leaf_size) value
  if rc.1.ok then (rc.1, rc.2) else (rc.1, value_str)

/-- C8: each conversion hands the codec a buffer bound of exactly 8 times
the element's binary size; under the snprintf contract — the codec fails
whenever the element's textual form does not fit the given bound — an
element whose text form reaches the bound produces a defined failure
status and leaves the caller's string untouched (no silent truncation). -/
theorem text_encoding_bound_guard {E : Type} (txt : E → String)
    (codec : Nat → E → StatusTuple × String) (size : Nat) (x : E) (s : String)
    (hcodec : ∀ n k, n ≤ (txt k).length → (codec n k).1.ok = false)
    (hbig : 8 * size ≤ (txt x).length) :
    (BPFTableBase.key_to_string codec size x s).1.ok = false ∧
    BPFTableBase.key_to_string codec size x s = ((codec (8 * size) x).1, s) ∧
    (BPFTableBase.leaf_to_string codec size x s).1.ok = false ∧
    BPFTableBase.leaf_to_string codec size x s = ((codec (8 * size) x).1, s) ∧
    (BPFQueueStackTableBase.leaf_to_string codec size x s).1.ok = false ∧
    BPFQueueStackTableBase.leaf_to_string codec size x s = ((codec (8 * size) x).1, s) := by
  have hfail : (codec (8 * size) x).1.ok = false := hcodec (8 * size) x hbig
  refine ⟨?_, ?_, ?_, ?_, ?_, ?_⟩ <;>
    simp [BPFTableBase.key_to_string, BPFTableBase.leaf_to_string,
      BPFQueueStackTableBase.leaf_to_string, hfail]

/-- Fixed 16-character textual form used to witness the bound guard. -/
def fixedText : Nat → String := fun _ => "0123456789abcdef"

/-- snprintf-style codec model: succeeds exactly when the textual form
(plus its terminating NUL) fits the given buffer bound. -/
def snprintfModel : Nat → Nat → StatusTuple × String := fun n k =>
  if (fixedText k).length < n then (StatusTuple.OK, fixedText k)
  else (⟨-1, "error formatting output"⟩, "")

/-- Witness for C8: a 16-character textual form against `key_size = 2`
(bound `8 * 2 = 16`) fails and leaves the caller's string unchanged. -/
theorem text_encoding_bound_guard_witness :
    (8 * 2 ≤ (fixedText 0).length) ∧
    BPFTableBase.key_to_string snprintfModel 2 0 "orig" =
      ((snprintfModel (8 * 2) 0).1, "orig") := by
  have hcodec : ∀ n k, n ≤ (fixedText k).length → (snprintfModel n k).1.ok = false := by
    intro n k h
    have hlen : (fixedText k).length = 16 := rfl
    rw [snprintfModel, if_neg (by omega)]
    rfl
  refine ⟨by decide, ?_⟩
  exact (text_encoding_bound_guard fixedText snprintfModel 2 0 "orig" hcodec
    (by decide)).2.1

/-- C10: whenever the codec reports failure at the handed bound
`8 * size`, each of the three conversions returns exactly that failing
status and the caller's output string completely unchanged. -/
theorem codec_failure_leaves_output_unchanged {E : Type}
    (codec : Nat → E → StatusTuple × String) (size : Nat) (x : E) (s : String)
    (h : (codec (8 * size) x).1.ok = false) :
    BPFTableBase.key_to_string codec size x s = ((codec (8 * size) x).1, s) ∧
    BPFTableBase.leaf_to_string codec size x s = ((codec (8 * size) x).1, s) ∧
    BPFQueueStackTableBase.leaf_to_string codec size x s = ((codec (8 * size) x).1, s) := by
  refine ⟨?_, ?_, ?_⟩ <;>
    simp [BPFTableBase.key_to_string, BPFTableBase.leaf_to_string,
      BPFQueueStackTableBase.leaf_to_string, h]

/-- Witness for C10 with a codec that always fails: the caller's string
"kept" survives unchanged alongside the codec's failing status. -/
theorem codec_failure_leaves_output_unchanged_witness :
    ((((fun (_ : Nat) (_ : Nat) => ((⟨-1, "fail"⟩ : StatusTuple), "junk")) (8 * 3) 5).1.ok)
        = false) ∧
    BPFTableBase.key_to_string (fun _ _ => (⟨-1, "fail"⟩, "junk")) 3 5 "kept" =
      ((⟨-1, "fail"⟩ : StatusTuple), "kept") := by
  refine ⟨by decide, ?_⟩
  exact (codec_failure_leaves_output_unchanged
    (fun (_ : Nat) (_ : Nat) => ((⟨-1, "fail"⟩ : StatusTuple), "junk")) 3 5 "kept"
    (by decide)).1

/-- C9: when the kernel lookup at a key fails (any errno), `operator[]` of
the array and hash variants returns the default-constructed value and
discards the error status; the same call on a kernel state that genuinely
stores the default value at that key returns the identical result, so the
two situations are indistinguishable through `operator[]`. -/
theorem subscript_discards_lookup_error {K V : Type} [DecidableEq K]
    (kernA : Int → Except Nat V) (kernH : K → Except Nat V)
    (i : Int) (key : K) (d : V) (e1 e2 : Nat)
    (hA : kernA i = Except.error e1) (hH : kernH key = Except.error e2) :
    BPFArrayTable.opIndex kernA i d = d ∧
    BPFArrayTable.opIndex (fun j => if j = i then Except.ok d else kernA j) i d = d ∧
    BPFHashTable.opIndex kernH key d = d ∧
    BPFHashTable.opIndex (fun k => if k = key then Except.ok d else kernH k) key d = d := by
  refine ⟨?_, ?_, ?_, ?_⟩ <;>
    simp [BPFArrayTable.opIndex, BPFHashTable.opIndex, BPFArrayTable.get_value,
      BPFHashTable.get_value, hA, hH]

/-- Witness for C9: a kernel with no stored keys and one storing the
default `0` at key `5` give the same `operator[]` result. -/
theorem subscript_discards_lookup_error_witness :
    ((fun (_ : Int) => (Except.error 2 : Except Nat Nat)) 5 = Except.error 2) ∧
    BPFArrayTable.opIndex (fun _ => (Except.error 2 : Except Nat Nat)) 5 0 = 0 := by
  refine ⟨rfl, ?_⟩
  exact (subscript_discards_lookup_error (fun _ => (Except.error 2 : Except Nat Nat))
    (fun (_ : Nat) => (Except.error 2 : Except Nat Nat)) 5 7 0 2 2 rfl rfl).1

/-! ## Iteration: `get_table_offline` and `clear_table_non_atomic`

The iteration primitives of `BPFTableBase` are bundled into a kernel-state
record: `lookup` models `bpf_lookup_elem` (through the class `get_value`,
whose status is ok exactly when the kernel call succeeds), `firstKey`
models `bpf_get_first_key` (`none` = no first key), `nextKey` models
`bpf_get_next_key` (`none` = no next key or failure — the `< 0` return
does not distinguish them). -/

/-- Kernel map state as seen through the three iteration syscalls. -/
structure Kernel (K V : Type) where
  lookup : K → Except Nat V
  firstKey : Option K
  nextKey : K → Option K

/-- Loop body of `BPFHashTable::get_table_offline` (`BPFTable.h:314-321`):
read the current key's value — on failure break, discarding the local
status `r`; on success append the pair and advance via next-key, breaking
when there is none.  `fuel` bounds the number of iterations (the C++ loop
has no such bound; every claim is proved with sufficient fuel). -/
def getTableOfflineGo {K V : Type} (kern : Kernel K V) : Nat → K → List (K × V)
  | 0, _ => []
  | Nat.succ fuel, cur =>
    match kern.lookup cur with
    | Except.error _ => []
    | Except.ok v =>
      match kern.nextKey cur with
      | none => [(cur, v)]
      | some nk => (cur, v) :: getTableOfflineGo kern fuel nk

/-- `BPFHashTable::get_table_offline` (`BPFTable.h:304-324`): empty result
when there is no first key, else the first/read/next walk.  The C++
function returns only the vector — the loop's local `StatusTuple r` never
leaves the function. -/
def BPFHashTable.get_table_offline {K V : Type} (kern : Kernel K V) (fuel : Nat) :
    List (K × V) :=
  match kern.firstKey with
  | none => []
  | some k => getTableOfflineGo kern fuel k

/-- `BPFHashTable::clear_table_non_atomic` (`BPFTable.h:326-332`) over the
kernel's entry list, where `bpf_get_first_key` reports the head and a
successful `remove_value` deletes it: loop while a first key exists,
propagating (`TRY2`) any remove failure together with the surviving
entries; `removeOk k = some e` means `bpf_delete_elem` fails on `k` with
`errno = e`. -/
def BPFHashTable.clear_table_non_atomic {K V : Type} (removeOk : K → Option Nat) :
    List (K × V) → StatusTuple × List (K × V)
  | [] => (StatusTuple.OK, [])
  | (k, v) :: rest =>
    match removeOk k with
    | none => BPFHashTable.clear_table_non_atomic removeOk rest
    | some e => (⟨-1, "Error removing value: " ++ strerror e⟩, (k, v) :: rest)

/-- First value bound to `key` in an association list. -/
def assocLookup {K V : Type} [DecidableEq K] : List (K × V) → K → Option V
  | [], _ => none
  | p :: rest, key => if key = p.1 then some p.2 else assocLookup rest key

/-- Key following the first occurrence of `key` in the entry list. -/
def nextAfter {K V : Type} [DecidableEq K] : List (K × V) → K → Option K
  | [], _ => none
  | p :: rest, key => if key = p.1 then rest.head?.map Prod.fst else nextAfter rest key

/-- Kernel state holding exactly `entries`, iterated in list order, with
every stored key readable (`ENOENT` on absent keys): the
no-concurrent-mutation, no-read-failure environment of the claim. -/
def kernelOfEntries {K V : Type} [DecidableEq K] (entries : List (K × V)) : Kernel K V where
  lookup := fun k =>
    match assocLookup entries k with
    | some v => Except.ok v
    | none => Except.error 2
  firstKey := entries.head?.map Prod.fst
  nextKey := fun k => nextAfter entries k

theorem assocLookup_append_of_not_mem {K V : Type} [DecidableEq K]
    (pre l : List (K × V)) (k : K) (h : k ∉ pre.map Prod.fst) :
    assocLookup (pre ++ l) k = assocLookup l k := by
  induction pre with
  | nil => rfl
  | cons p ps ih =>
    simp only [List.map_cons, List.mem_cons, not_or] at h
    simp only [List.cons_append, assocLookup, if_neg h.1]
    exact ih h.2

theorem nextAfter_append_of_not_mem {K V : Type} [DecidableEq K]
    (pre l : List (K × V)) (k : K) (h : k ∉ pre.map Prod.fst) :
    nextAfter (pre ++ l) k = nextAfter l k := by
  induction pre with
  | nil => rfl
  | cons p ps ih =>
    simp only [List.map_cons, List.mem_cons, not_or] at h
    simp only [List.cons_append, nextAfter, if_neg h.1]
    exact ih h.2

/-- Walking `kernelOfEntries (pre ++ (k, v) :: rest)` from `k` — with
duplicate-free keys and fuel beyond the remaining length — yields exactly
the remaining entries `(k, v) :: rest`. -/
theorem getTableOfflineGo_entries {K V : Type} [DecidableEq K] (rest : List (K × V)) :
    ∀ (pre : List (K × V)) (k : K) (v : V) (fuel : Nat),
      ((pre ++ (k, v) :: rest).map Prod.fst).Nodup →
      rest.length < fuel →
      getTableOfflineGo (kernelOfEntries (pre ++ (k, v) :: rest)) fuel k =
        (k, v) :: rest := by
  induction rest with
  | nil =>
    intro pre k v fuel hnd hfuel
    obtain ⟨fuel, rfl⟩ : ∃ f, fuel = f + 1 := ⟨fuel - 1, by omega⟩
    have hk : k ∉ pre.map Prod.fst := by
      simp only [List.map_append, List.nodup_append] at hnd
      intro hmem
      exact hnd.2.2 hmem (by simp)
    have hlk : assocLookup (pre ++ [(k, v)]) k = some v := by
      rw [assocLookup_append_of_not_mem pre _ k hk]
      simp [assocLookup]
    have hnx : nextAfter (pre ++ [(k, v)]) k = none := by
      rw [nextAfter_append_of_not_mem pre _ k hk]
      simp [nextAfter]
    simp [getTableOfflineGo, kernelOfEntries, hlk, hnx]
  | cons q rest ih =>
    intro pre k v fuel hnd hfuel
    obtain ⟨qk, qv⟩ := q
    obtain ⟨fuel, rfl⟩ : ∃ f, fuel = f + 1 := ⟨fuel - 1, by omega⟩
    have hk : k ∉ pre.map Prod.fst := by
      simp only [List.map_append, List.nodup_append] at hnd
      intro hmem
      exact hnd.2.2 hmem (by simp)
    have hlk : assocLookup (pre ++ (k, v) :: (qk, qv) :: rest) k = some v := by
      rw [assocLookup_append_of_not_mem pre _ k hk]
      simp [assocLookup]
    have hnx : nextAfter (pre ++ (k, v) :: (qk, qv) :: rest) k = some qk := by
      rw [nextAfter_append_of_not_mem pre _ k hk]
      simp [nextAfter]
    have hassoc : pre ++ (k, v) :: (qk, qv) :: rest =
        (pre ++ [(k, v)]) ++ (qk, qv) :: rest := by
      simp
    have hrec := ih (pre ++ [(k, v)]) qk qv fuel (by rw [← hassoc]; exact hnd)
      (by simpa using Nat.lt_of_succ_lt_succ hfuel)
    rw [← hassoc] at hrec
    have hstep : getTableOfflineGo (kernelOfEntries (pre ++ (k, v) :: (qk, qv) :: rest))
        (fuel + 1) k =
        (k, v) :: getTableOfflineGo (kernelOfEntries (pre ++ (k, v) :: (qk, qv) :: rest))
          fuel qk := by
      simp [getTableOfflineGo, kernelOfEntries, hlk, hnx]
    rw [hstep, hrec]

/-- C3: over a kernel state holding exactly `entries` (duplicate-free
keys, no concurrent mutation, every read succeeding), the
first-key/read/next-key walk of `get_table_offline` returns an empty
sequence on an empty map and exactly the `N` stored (key, value) pairs on
a map with `N` entries. -/
theorem hash_get_table_offline_complete {K V : Type} [DecidableEq K]
    (entries : List (K × V)) (hnd : (entries.map Prod.fst).Nodup) :
    BPFHashTable.get_table_offline (kernelOfEntries entries) entries.length = entries ∧
    (BPFHashTable.get_table_offline (kernelOfEntries entries) entries.length).length =
      entries.length := by
  have main : BPFHashTable.get_table_offline (kernelOfEntries entries) entries.length
      = entries := by
    cases entries with
    | nil => rfl
    | cons p rest =>
      obtain ⟨k, v⟩ := p
      have hgo := getTableOfflineGo_entries rest [] k v (rest.length + 1)
        (by simpa using hnd) (Nat.lt_succ_self _)
      simp only [List.nil_append] at hgo
      simpa [BPFHashTable.get_table_offline, kernelOfEntries] using hgo
  exact ⟨main, by rw [main]⟩

/-- Witness for C3 on the two-entry map `{1 ↦ 10, 2 ↦ 20}` and on the
empty map. -/
theorem hash_get_table_offline_complete_witness :
    ((([(1, 10), (2, 20)] : List (Nat × Nat)).map Prod.fst).Nodup) ∧
    BPFHashTable.get_table_offline (kernelOfEntries [(1, 10), (2, 20)]) 2 =
      [(1, 10), (2, 20)] ∧
    BPFHashTable.get_table_offline (kernelOfEntries ([] : List (Nat × Nat))) 0 = [] := by
  refine ⟨by decide, ?_, ?_⟩
  · exact (hash_get_table_offline_complete [(1, 10), (2, 20)] (by decide)).1
  · exact (hash_get_table_offline_complete ([] : List (Nat × Nat)) (by decide)).1

/-- Every pair returned by the walk was read successfully from the
kernel. -/
theorem getTableOfflineGo_mem {K V : Type} (kern : Kernel K V) :
    ∀ (fuel : Nat) (cur : K) (p : K × V), p ∈ getTableOfflineGo kern fuel cur →
      kern.lookup p.1 = Except.ok p.2 := by
  intro fuel
  induction fuel with
  | zero => intro cur p hp; simp [getTableOfflineGo] at hp
  | succ fuel ih =>
    intro cur p hp
    unfold getTableOfflineGo at hp
    cases hlk : kern.lookup cur with
    | error e => rw [hlk] at hp; simp at hp
    | ok v =>
      rw [hlk] at hp
      cases hnx : kern.nextKey cur with
      | none =>
        rw [hnx] at hp
        simp at hp
        rw [hp]
        exact hlk
      | some nk =>
        rw [hnx] at hp
        rcases List.mem_cons.mp hp with heq | hmem
        · rw [heq]; exact hlk
        · exact ih nk p hmem

/-- C4 (amended): in both walks "no next key" is ordinary end-of-data —
no first key yields the empty result / immediate `OK`, and a missing next
key merely ends the loop; a mid-walk read error in `get_table_offline`
aborts the walk (an erroring key contributes nothing and stops the loop)
but the error status is discarded — only the successfully read pairs come
back; in `clear_table_non_atomic` a failed remove aborts the loop and does
surface its error. -/
theorem walk_and_clear_error_handling (kern : Kernel Nat Nat) (fuel : Nat)
    (removeOk : Nat → Option Nat) :
    (kern.firstKey = none → BPFHashTable.get_table_offline kern fuel = []) ∧
    (∀ cur e, kern.lookup cur = Except.error e →
      getTableOfflineGo kern (fuel + 1) cur = []) ∧
    (∀ p ∈ BPFHashTable.get_table_offline kern fuel,
      kern.lookup p.1 = Except.ok p.2) ∧
    (BPFHashTable.clear_table_non_atomic removeOk ([] : List (Nat × Nat)) =
      (StatusTuple.OK, [])) ∧
    (∀ (k v : Nat) (rest : List (Nat × Nat)) (e : Nat), removeOk k = some e →
      BPFHashTable.clear_table_non_atomic removeOk ((k, v) :: rest) =
        (⟨-1, "Error removing value: " ++ strerror e⟩, (k, v) :: rest)) := by
  refine ⟨?_, ?_, ?_, rfl, ?_⟩
  · intro hfk
    simp [BPFHashTable.get_table_offline, hfk]
  · intro cur e hlk
    simp [getTableOfflineGo, hlk]
  · intro p hp
    unfold BPFHashTable.get_table_offline at hp
    cases hfk : kern.firstKey with
    | none => rw [hfk] at hp; simp at hp
    | some k =>
      rw [hfk] at hp
      exact getTableOfflineGo_mem kern fuel k p hp
  · intro k v rest e hrm
    simp [BPFHashTable.clear_table_non_atomic, hrm]

/-- Kernel state with no first key (an empty map whose every read also
fails), used to witness the end-of-data treatment. -/
def emptyKernel : Kernel Nat Nat where
  lookup := fun _ => Except.error 5
  firstKey := none
  nextKey := fun _ => none

/-- Witness for C4 (amended): an empty kernel yields the empty walk, and a
failing remove on `{1 ↦ 10}` surfaces "Error removing value". -/
theorem walk_and_clear_error_handling_witness :
    emptyKernel.firstKey = none ∧
    BPFHashTable.get_table_offline emptyKernel 3 = [] ∧
    BPFHashTable.clear_table_non_atomic (fun _ => some 1) ([(1, 10)] : List (Nat × Nat)) =
      (⟨-1, "Error removing value: " ++ strerror 1⟩, [(1, 10)]) := by
  refine ⟨rfl, ?_, ?_⟩
  · exact (walk_and_clear_error_handling emptyKernel 3 (fun _ => some 1)).1 rfl
  · exact (walk_and_clear_error_handling emptyKernel 3
      (fun _ => some 1)).2.2.2.2 1 10 [] 1 rfl

/-- Kernel state whose key chain reports keys 1 then 2, where reading
key 2 fails with a true error mid-walk (e.g. the entry vanished between
next-key and lookup). -/
def errKernel : Kernel Nat Nat where
  lookup := fun k => if k = 1 then Except.ok 10 else Except.error 2
  firstKey := some 1
  nextKey := fun k => if k = 1 then some 2 else none

/-- C4 counterexample: `errKernel` suffers a genuine read error at key 2
mid-walk, yet `get_table_offline` returns the plain partial list
`[(1, 10)]` — byte-for-byte the result it returns on an honest one-entry
map — so no caller-side observer of the returned value can tell the
aborted, erroring walk from a successful one: the last error is not
surfaced to the caller. -/
theorem walk_error_not_surfaced :
    errKernel.lookup 2 = Except.error 2 ∧
    errKernel.nextKey 1 = some 2 ∧
    BPFHashTable.get_table_offline errKernel 2 = [(1, 10)] ∧
    BPFHashTable.get_table_offline (kernelOfEntries [(1, 10)]) 2 = [(1, 10)] ∧
    ¬ ∃ detect : List (Nat × Nat) → Bool,
        detect (BPFHashTable.get_table_offline errKernel 2) = true ∧
        detect (BPFHashTable.get_table_offline (kernelOfEntries [(1, 10)]) 2) = false := by
  have h1 : BPFHashTable.get_table_offline errKernel 2 = [(1, 10)] := rfl
  have h2 : BPFHashTable.get_table_offline (kernelOfEntries [(1, 10)]) 2 = [(1, 10)] := rfl
  refine ⟨rfl, rfl, h1, h2, ?_⟩
  rintro ⟨f, hf1, hf2⟩
  rw [h1] at hf1
  rw [h2] at hf2
  rw [hf1] at hf2
  exact Bool.noConfusion hf2

end ebpf
